import Mathlib

/- Shallow embedding of bin/iam_template_build.py from aws-iam-generator.
   Python dictionaries holding configuration models become structures with
   Option fields; troposphere resources become plain records; the mutable
   per-account template dictionary becomes an association list threaded
   through the assembler functions; Python exceptions become Except. -/

set_option linter.unusedVariables false

/- String helpers over the character list, mirroring the regex idioms of
   the source. -/

/-- Boolean prefix test: models Python re.match with an anchored literal
pattern such as re.match("arn:aws", s) and re.match("^import:", s). -/
def str_starts_with (p s : String) : Bool :=
  List.isPrefixOf p.data s.data

/-- Drop the first n characters; models taking group(1) of
re.match("^import:(.*)", s), i.e. the remainder after the 7-character
"import:" marker. -/
def str_drop (s : String) (n : Nat) : String :=
  String.mk (s.data.drop n)

/-- Test whether the string contains a dot; models
re.match("^.*\\..*?$", s), the service-name check of build_role_trust. -/
def str_has_dot (s : String) : Bool :=
  s.data.contains '.'

/-- scrub_name from the source: re.sub removes every run matched by the
character class of non-word characters together with the underscore, so
exactly the characters outside A-Z, a-z, 0-9 are removed. -/
def scrub_name (name : String) : String :=
  String.mk (name.data.filter (fun ch => ch.isAlpha || ch.isDigit))

/- Configuration context: the fields of the config-helper object `c` that
   bin/iam_template_build.py reads.  The helper itself lives outside the
   embedded file, so its queries are abstract function fields here; concrete
   instantiations are supplied for scenario theorems. -/

structure Config where
  currentAccount : String
  parentAccountId : String
  samlProvider : String
  templateOutputs : String
  searchAccounts : List String → List String
  accountMapIds : String → String
  mapAccount : String → String
  isLocalManagedPolicy : String → Bool
  isManagedPolicyInAccount : String → String → Bool

/- Trust policy documents (build_role_trust). -/

/-- A principal of a trust statement: the "AWS", "Federated" or "Service"
key of the Principal dictionary. -/
inductive Principal where
  | aws (arn : String)
  | federated (arn : String)
  | service (name : String)
  deriving DecidableEq

/-- One statement of a trust policy document.  The condition field holds
the SAML audience value when the StringEquals condition block is present. -/
structure TrustStmt where
  effect : String
  principal : Principal
  action : String
  condition : Option String
  deriving DecidableEq

/-- A trust policy document: fixed version plus ordered statements. -/
structure PolicyDoc where
  version : String
  statements : List TrustStmt
  deriving DecidableEq

/-- Classification of one trust specifier, following the if/elif chain of
build_role_trust in source order. -/
inductive TrustClass where
  | account (friendly : String)
  | saml
  | service
  | unknown
  deriving DecidableEq

/-- The if/elif chain of build_role_trust for one specifier: first an
account lookup via search_accounts, then the SAML provider name, then the
dotted service pattern, otherwise unresolved. -/
def classify_trust (c : Config) (trust : String) : TrustClass :=
  match c.searchAccounts [trust] with
  | a :: _ => TrustClass.account a
  | [] =>
    if trust = c.samlProvider then TrustClass.saml
    else if str_has_dot trust then TrustClass.service
    else TrustClass.unknown

/-- Error text raised for an unresolved trust specifier (typo preserved
from the source). -/
def unresolved_trust_msg (trust : String) : String :=
  "Uanble to find trust name '" ++ trust ++ "' in the config.yaml. " ++
  "Assure it exists in the account section."

/-- The AWS account-root principal built for an account match. -/
def account_principal (c : Config) (friendly : String) : Principal :=
  Principal.aws ("arn:aws:iam::" ++ c.accountMapIds friendly ++ ":root")

/-- The federated SAML principal built for the SAML provider match. -/
def saml_principal (c : Config) : Principal :=
  Principal.federated
    ("arn:aws:iam::" ++ c.parentAccountId ++ ":saml-provider/" ++
     c.samlProvider)

/-- The loop of build_role_trust that fills sts_principals and
saml_principals, preserving encounter order and failing at the first
unresolved specifier. -/
def classify_trusts (c : Config) :
    List String → Except String (List Principal × List Principal)
  | [] => Except.ok ([], [])
  | t :: ts =>
    match classify_trust c t with
    | TrustClass.account a =>
        (classify_trusts c ts).map
          (fun p => (account_principal c a :: p.1, p.2))
    | TrustClass.saml =>
        (classify_trusts c ts).map
          (fun p => (p.1, saml_principal c :: p.2))
    | TrustClass.service =>
        (classify_trusts c ts).map
          (fun p => (Principal.service t :: p.1, p.2))
    | TrustClass.unknown => Except.error (unresolved_trust_msg t)

/-- Audience value of the fixed SAML condition block. -/
def saml_aud : String := "https://signin.aws.amazon.com/saml"

/-- build_role_trust: classify every specifier, then emit all
sts:AssumeRole statements followed by all sts:AssumeRoleWithSAML
statements with the fixed audience condition. -/
def build_role_trust (c : Config) (trusts : List String) :
    Except String PolicyDoc :=
  (classify_trusts c trusts).map (fun p =>
    { version := "2012-10-17"
      statements :=
        p.1.map (fun pr =>
          { effect := "Allow", principal := pr,
            action := "sts:AssumeRole", condition := none }) ++
        p.2.map (fun pr =>
          { effect := "Allow", principal := pr,
            action := "sts:AssumeRoleWithSAML",
            condition := some saml_aud }) })

/- Assume-shorthand policy documents (build_assume_role_policy_document). -/

/-- One statement of an assume-shorthand policy document: effect, action
and a role ARN resource. -/
structure ResourceStmt where
  effect : String
  action : String
  resource : String
  deriving DecidableEq

/-- build_sts_statement from the source. -/
def build_sts_statement (account role : String) : ResourceStmt :=
  { effect := "Allow", action := "sts:AssumeRole",
    resource := "arn:aws:iam::" ++ account ++ ":role/" ++ role }

/-- An assume-shorthand policy document. -/
structure AssumePolicyDoc where
  version : String
  statements : List ResourceStmt
  deriving DecidableEq

/-- The nested loop of build_assume_role_policy_document: roles outermost,
accounts innermost, one statement per pair. -/
def assume_statements (c : Config) (accounts : List String) :
    List String → List ResourceStmt
  | [] => []
  | r :: rs =>
    accounts.map (fun a => build_sts_statement (c.mapAccount a) r) ++
    assume_statements c accounts rs

/-- build_assume_role_policy_document from the source. -/
def build_assume_role_policy_document (c : Config)
    (accounts roles : List String) : AssumePolicyDoc :=
  { version := "2012-10-17", statements := assume_statements c accounts roles }

/- Managed-policy reference resolution (parse_managed_policies). -/

/-- The three shapes a managed-policy reference resolves to: a literal
ARN string, an ImportValue of an export name, or a Ref to a scrubbed
local logical name. -/
inductive ManagedPolicyRef where
  | literal (arn : String)
  | importValue (exportName : String)
  | ref (logicalName : String)
  deriving DecidableEq

/-- Error text for a managed-policy name absent from the configuration. -/
def mp_unknown_msg (workingOn mp : String) : String :=
  "Working on: '" ++ workingOn ++ "' - Managed Policy: '" ++ mp ++
  "' does not exist in the configuration file"

/-- Error text for a managed-policy name not scheduled for the current
account. -/
def mp_not_in_account_msg (workingOn mp account : String) : String :=
  "Working on: '" ++ workingOn ++ "' - Managed Policy: '" ++ mp ++
  "' is not configured to go into account: '" ++ account ++ "'"

/-- parse_managed_policies from the source: per reference, first the ARN
prefix, then the colon-delimited remote-export marker, then the local-name
path with its existence check before its account-membership check. -/
def parse_managed_policies (c : Config) (mps : List String)
    (workingOn : String) : Except String (List ManagedPolicyRef) :=
  match mps with
  | [] => Except.ok []
  | mp :: rest =>
    if str_starts_with "arn:aws" mp then
      (parse_managed_policies c rest workingOn).map
        (fun l => ManagedPolicyRef.literal mp :: l)
    else if str_starts_with "import:" mp then
      (parse_managed_policies c rest workingOn).map
        (fun l => ManagedPolicyRef.importValue (str_drop mp 7) :: l)
    else if c.isLocalManagedPolicy mp then
      if c.isManagedPolicyInAccount mp (c.mapAccount c.currentAccount) then
        (parse_managed_policies c rest workingOn).map
          (fun l => ManagedPolicyRef.ref (scrub_name mp) :: l)
      else Except.error (mp_not_in_account_msg workingOn mp c.currentAccount)
    else Except.error (mp_unknown_msg workingOn mp)

/- Membership lists (parse_imports). -/

/-- An element of a membership list after parse_imports: either an
ImportValue of an export name, or the raw name kept verbatim. -/
inductive ImportOrName where
  | importValue (exportName : String)
  | name (s : String)
  deriving DecidableEq

/-- The per-element step of parse_imports. -/
def parse_import_elem (s : String) : ImportOrName :=
  if str_starts_with "import:" s then
    ImportOrName.importValue (str_drop s 7)
  else ImportOrName.name s

/-- parse_imports from the source. -/
def parse_imports (l : List String) : List ImportOrName :=
  l.map parse_import_elem

/- Resource records: the troposphere objects the assemblers construct,
   restricted to the keyword arguments the source sets. -/

/-- Content registered as a managed policy's PolicyDocument in the
policies fan-out loop: the initial empty string, the rendered and parsed
jinja file (kept opaque, keyed by its file name, since file reading and
the templating engine are external collaborators), or the
assume-shorthand document. -/
inductive PolicyDocContent where
  | emptyStr
  | fromFile (file : String)
  | assumeDoc (d : AssumePolicyDoc)
  deriving DecidableEq

/-- The ManagedPolicy resource record. -/
structure ManagedPolicyResource where
  logicalName : String
  managedPolicyName : Option String
  description : String
  policyDocument : PolicyDocContent
  groups : List ImportOrName
  users : List ImportOrName
  roles : List ImportOrName
  retain : Bool
  deriving DecidableEq

/-- The Role resource record. -/
structure RoleResource where
  logicalName : String
  roleName : Option String
  path : String
  assumeRolePolicyDocument : PolicyDoc
  managedPolicyArns : List ManagedPolicyRef
  retain : Bool
  deriving DecidableEq

/-- The InstanceProfile resource record; roles holds the logical names
the Ref list points at. -/
structure InstanceProfileResource where
  logicalName : String
  instanceProfileName : Option String
  path : String
  roles : List String
  retain : Bool
  deriving DecidableEq

/-- The Group resource record. -/
structure GroupResource where
  logicalName : String
  groupName : Option String
  path : String
  managedPolicyArns : List ManagedPolicyRef
  retain : Bool
  deriving DecidableEq

/-- The LoginProfile attached to a user with a password. -/
structure LoginProfileR where
  password : String
  passwordResetRequired : Bool
  deriving DecidableEq

/-- The User resource record. -/
structure UserResource where
  logicalName : String
  userName : Option String
  path : String
  groups : List ImportOrName
  managedPolicyArns : List ManagedPolicyRef
  loginProfile : Option LoginProfileR
  retain : Bool
  deriving DecidableEq

/-- Any resource registered into a template document. -/
inductive Resource where
  | managedPolicy (r : ManagedPolicyResource)
  | role (r : RoleResource)
  | instanceProfile (r : InstanceProfileResource)
  | group (r : GroupResource)
  | user (r : UserResource)
  deriving DecidableEq

/-- The Value argument of an Output declaration: Ref or GetAtt. -/
inductive OutVal where
  | refOf (logicalName : String)
  | getAtt (logicalName : String) (attr : String)
  deriving DecidableEq

/-- An Output declaration with its Export name (the Sub string). -/
structure OutputDecl where
  name : String
  description : String
  value : OutVal
  exportName : String
  deriving DecidableEq

/-- One per-account template document: ordered resources and outputs. -/
structure TemplateDocument where
  resources : List Resource
  outputs : List OutputDecl
  deriving DecidableEq

/-- The c.template dictionary: friendly account name to its document. -/
abbrev Templates := List (String × TemplateDocument)

/-- Dictionary read; an absent account reads as an empty document. -/
def getT (ts : Templates) (a : String) : TemplateDocument :=
  match ts with
  | [] => { resources := [], outputs := [] }
  | p :: ps => if p.1 = a then p.2 else getT ps a

/-- Dictionary write: replace the first binding of the account, or append
a fresh one. -/
def setT (ts : Templates) (a : String) (d : TemplateDocument) : Templates :=
  match ts with
  | [] => [(a, d)]
  | p :: ps => if p.1 = a then (a, d) :: ps else p :: setT ps a d

/- Model records for the per-entity configuration dictionaries.  An
   Option field is none exactly when the key is absent from the model. -/

/-- A policies-section entry. -/
structure PolicyModel where
  policyFile : Option String
  templateVars : Option String
  assume : Option (List String × List String)
  inAccounts : Option (List String)
  description : Option String
  groups : Option (List String)
  users : Option (List String)
  roles : Option (List String)
  retainOnDelete : Option Bool

/-- A roles-section entry. -/
structure RoleModel where
  trusts : List String
  managedPolicies : Option (List String)
  inAccounts : Option (List String)
  retainOnDelete : Option Bool

/-- A groups-section entry. -/
structure GroupModel where
  managedPolicies : Option (List String)
  inAccounts : Option (List String)
  retainOnDelete : Option Bool

/-- A users-section entry. -/
structure UserModel where
  groups : Option (List String)
  managedPolicies : Option (List String)
  password : Option String
  inAccounts : Option (List String)
  retainOnDelete : Option Bool

/-- The DeletionPolicy Retain flag: set only when retain_on_delete is
present and literally True. -/
def retain_flag (o : Option Bool) : Bool :=
  match o with
  | some b => b
  | none => false

/- The five assemblers.  Each one builds a resource record and an output
   declaration and then performs the same tail found in every source
   assembler: a troposphere add_resource on the current account's
   document, followed by an add_output gated on the template_outputs
   flag.  That shared tail is factored here as add_resource_and_output. -/

/-- The shared tail of every assembler: register the resource into the
current account's document and, when the template_outputs flag is the
string enabled, append the output declaration. -/
def add_resource_and_output (c : Config) (r : Resource) (out : OutputDecl)
    (ts : Templates) : Templates :=
  let t := getT ts c.currentAccount
  let t := { t with resources := t.resources ++ [r] }
  let t :=
    if c.templateOutputs = "enabled" then
      { t with outputs := t.outputs ++ [out] }
    else t
  setT ts c.currentAccount t

/-- The ManagedPolicy description: the model's description when present,
otherwise the default prefix plus the policy name. -/
def managed_policy_desc (ManagedPolicyName : String)
    (model : PolicyModel) : String :=
  match model.description with
  | some d => d
  | none => "Managed Policy " ++ ManagedPolicyName

/-- The ManagedPolicy resource record built by add_managed_policy. -/
def managed_policy_resource (ManagedPolicyName : String)
    (PolicyDocument : PolicyDocContent) (model : PolicyModel)
    (named : Bool) : ManagedPolicyResource :=
  { logicalName := scrub_name ManagedPolicyName
    managedPolicyName := if named then some ManagedPolicyName else none
    description := managed_policy_desc ManagedPolicyName model
    policyDocument := PolicyDocument
    groups := parse_imports (model.groups.getD [])
    users := parse_imports (model.users.getD [])
    roles := parse_imports (model.roles.getD [])
    retain := retain_flag model.retainOnDelete }

/-- The Output declaration of add_managed_policy. -/
def managed_policy_output (ManagedPolicyName : String)
    (model : PolicyModel) : OutputDecl :=
  { name := scrub_name ManagedPolicyName ++ "PolicyArn"
    description :=
      managed_policy_desc ManagedPolicyName model ++ " Policy Document ARN"
    value := OutVal.refOf (scrub_name ManagedPolicyName)
    exportName :=
      "${AWS::StackName}-" ++ scrub_name ManagedPolicyName ++ "PolicyArn" }

/-- add_managed_policy from the source. -/
def add_managed_policy (c : Config) (ManagedPolicyName : String)
    (PolicyDocument : PolicyDocContent) (model : PolicyModel)
    (named : Bool) (ts : Templates) : Templates :=
  add_resource_and_output c
    (Resource.managedPolicy
      (managed_policy_resource ManagedPolicyName PolicyDocument model named))
    (managed_policy_output ManagedPolicyName model) ts

/-- The InstanceProfile resource record built by create_instance_profile;
its Roles entry is a Ref to the scrubbed role logical name. -/
def instance_profile_resource (RoleName : String) (model : RoleModel)
    (named : Bool) : InstanceProfileResource :=
  { logicalName := scrub_name (RoleName ++ "InstanceProfile")
    instanceProfileName := if named then some RoleName else none
    path := "/"
    roles := [scrub_name (RoleName ++ "Role")]
    retain := retain_flag model.retainOnDelete }

/-- The Output declaration of create_instance_profile. -/
def instance_profile_output (RoleName : String) : OutputDecl :=
  { name := scrub_name (RoleName ++ "InstanceProfile") ++ "Arn"
    description := "Instance profile for Role " ++ RoleName ++ " ARN"
    value := OutVal.refOf (scrub_name (RoleName ++ "InstanceProfile"))
    exportName := "${AWS::StackName}-"
      ++ scrub_name (RoleName ++ "InstanceProfile") ++ "Arn" }

/-- create_instance_profile from the source. -/
def create_instance_profile (c : Config) (RoleName : String)
    (model : RoleModel) (named : Bool) (ts : Templates) : Templates :=
  add_resource_and_output c
    (Resource.instanceProfile (instance_profile_resource RoleName model named))
    (instance_profile_output RoleName) ts

/-- The Role resource record built by add_role from the resolved trust
document and managed-policy references. -/
def role_resource (RoleName : String) (model : RoleModel) (named : Bool)
    (trust : PolicyDoc) (arns : List ManagedPolicyRef) : RoleResource :=
  { logicalName := scrub_name (RoleName ++ "Role")
    roleName := if named then some RoleName else none
    path := "/"
    assumeRolePolicyDocument := trust
    managedPolicyArns := arns
    retain := retain_flag model.retainOnDelete }

/-- The Output declaration of add_role. -/
def role_output (RoleName : String) : OutputDecl :=
  { name := scrub_name (RoleName ++ "Role") ++ "Arn"
    description := "Role " ++ RoleName ++ " ARN"
    value := OutVal.getAtt (scrub_name (RoleName ++ "Role")) "Arn"
    exportName :=
      "${AWS::StackName}-" ++ scrub_name (RoleName ++ "Role") ++ "Arn" }

/-- add_role from the source.  Failures of build_role_trust and
parse_managed_policies propagate. -/
def add_role (c : Config) (RoleName : String) (model : RoleModel)
    (named : Bool) (ts : Templates) : Except String Templates :=
  match build_role_trust c model.trusts with
  | Except.error e => Except.error e
  | Except.ok trust =>
    match (match model.managedPolicies with
           | some l => parse_managed_policies c l RoleName
           | none => Except.ok []) with
    | Except.error e => Except.error e
    | Except.ok arns =>
      Except.ok (add_resource_and_output c
        (Resource.role (role_resource RoleName model named trust arns))
        (role_output RoleName) ts)

/-- The Group resource record built by add_group; its logical name is
scrubbed a second time at registration, as in the source. -/
def group_resource (GroupName : String) (model : GroupModel) (named : Bool)
    (arns : List ManagedPolicyRef) : GroupResource :=
  { logicalName := scrub_name (scrub_name (GroupName ++ "Group"))
    groupName := if named then some GroupName else none
    path := "/"
    managedPolicyArns := arns
    retain := retain_flag model.retainOnDelete }

/-- The Output declaration of add_group. -/
def group_output (GroupName : String) : OutputDecl :=
  { name := scrub_name (GroupName ++ "Group") ++ "Arn"
    description := "Group " ++ GroupName ++ " ARN"
    value := OutVal.getAtt (scrub_name (GroupName ++ "Group")) "Arn"
    exportName :=
      "${AWS::StackName}-" ++ scrub_name (GroupName ++ "Group") ++ "Arn" }

/-- add_group from the source. -/
def add_group (c : Config) (GroupName : String) (model : GroupModel)
    (named : Bool) (ts : Templates) : Except String Templates :=
  match (match model.managedPolicies with
         | some l => parse_managed_policies c l GroupName
         | none => Except.ok []) with
  | Except.error e => Except.error e
  | Except.ok arns =>
    Except.ok (add_resource_and_output c
      (Resource.group (group_resource GroupName model named arns))
      (group_output GroupName) ts)

/-- The User resource record built by add_user. -/
def user_resource (UserName : String) (model : UserModel) (named : Bool)
    (arns : List ManagedPolicyRef) : UserResource :=
  { logicalName := scrub_name (UserName ++ "User")
    userName := if named then some UserName else none
    path := "/"
    groups := parse_imports (model.groups.getD [])
    managedPolicyArns := arns
    loginProfile :=
      match model.password with
      | some pw => some { password := pw, passwordResetRequired := true }
      | none => none
    retain := retain_flag model.retainOnDelete }

/-- The Output declaration of add_user. -/
def user_output (UserName : String) : OutputDecl :=
  { name := scrub_name (UserName ++ "User") ++ "Arn"
    description := "User " ++ UserName ++ " ARN"
    value := OutVal.getAtt (scrub_name (UserName ++ "User")) "Arn"
    exportName :=
      "${AWS::StackName}-" ++ scrub_name (UserName ++ "User") ++ "Arn" }

/-- add_user from the source. -/
def add_user (c : Config) (UserName : String) (model : UserModel)
    (named : Bool) (ts : Templates) : Except String Templates :=
  match (match model.managedPolicies with
         | some l => parse_managed_policies c l UserName
         | none => Except.ok []) with
  | Except.error e => Except.error e
  | Except.ok arns =>
    Except.ok (add_resource_and_output c
      (Resource.user (user_resource UserName model named arns))
      (user_output UserName) ts)

/- Fan-out loop bodies from the bottom of the script. -/

/-- The per-account body of the policies loop: policy_document starts as
the empty string, a policy_file model renders its file, and an assume
model overwrites with the cross-product document; the result feeds
add_managed_policy. -/
def policy_document_for (c : Config) (model : PolicyModel) :
    PolicyDocContent :=
  let d := PolicyDocContent.emptyStr
  let d :=
    match model.policyFile with
    | some f => PolicyDocContent.fromFile f
    | none => d
  match model.assume with
  | some p =>
      PolicyDocContent.assumeDoc
        (build_assume_role_policy_document c (c.searchAccounts p.1) p.2)
  | none => d

/-- One iteration of the policies fan-out loop, for an account already
installed as c.currentAccount. -/
def process_policy_account (c : Config) (policyName : String)
    (model : PolicyModel) (named : Bool) (ts : Templates) : Templates :=
  add_managed_policy c policyName (policy_document_for c model) model named ts

/-- One iteration of the roles fan-out loop, for an account already
installed as c.currentAccount: add_role, then an instance profile when the
trusts list names the machine-instance service principal. -/
def process_role_account (c : Config) (roleName : String)
    (model : RoleModel) (named : Bool) (ts : Templates) :
    Except String Templates :=
  match add_role c roleName model named ts with
  | Except.error e => Except.error e
  | Except.ok ts1 =>
    if model.trusts.contains "ec2.amazonaws.com" then
      Except.ok (create_instance_profile c roleName model named ts1)
    else
      Except.ok ts1

/-- The account fan-out of the roles loop: install each resolved account
as current and run the loop body. -/
def process_role_accounts (c : Config) (roleName : String)
    (model : RoleModel) (named : Bool) :
    List String → Templates → Except String Templates
  | [], ts => Except.ok ts
  | a :: rest, ts =>
    match process_role_account { c with currentAccount := a }
        roleName model named ts with
    | Except.error e => Except.error e
    | Except.ok ts1 =>
      process_role_accounts c roleName model named rest ts1

/-- The roles loop for one role entry: context is the in_accounts list
when present, otherwise the literal all context. -/
def process_role (c : Config) (roleName : String) (model : RoleModel)
    (named : Bool) (ts : Templates) : Except String Templates :=
  let context := model.inAccounts.getD ["all"]
  process_role_accounts c roleName model named (c.searchAccounts context) ts

/- Concrete configuration used by scenario conjuncts and witnesses,
   matching the end-to-end scenarios of the specification: one account
   named prod with the stated numeric id. -/

/-- Modelled from the spec: search_accounts of lib/config_helper (absent
from the embedded sources) returns every configured account for the
literal all context and otherwise keeps exactly the entries that are
configured friendly names, here for the single account prod. -/
def example_search_accounts (ctx : List String) : List String :=
  if ctx = ["all"] then ["prod"]
  else ctx.filter (fun n => n = "prod")

/-- Modelled from the spec: map_account and account_map_ids of
lib/config_helper map a friendly name to its numeric id, here
prod to 111111111111. -/
def example_map_account (n : String) : String :=
  if n = "prod" then "111111111111" else ""

/-- A concrete configuration with one account prod (id 111111111111),
template outputs enabled, and no local managed policies. -/
def exampleConfig : Config :=
  { currentAccount := "prod"
    parentAccountId := "111111111111"
    samlProvider := "ExampleSAML"
    templateOutputs := "enabled"
    searchAccounts := example_search_accounts
    accountMapIds := example_map_account
    mapAccount := example_map_account
    isLocalManagedPolicy := fun _ => false
    isManagedPolicyInAccount := fun _ _ => false }

/-- The initial template dictionary holding an empty document for prod. -/
def exampleTemplates : Templates :=
  [("prod", { resources := [], outputs := [] })]

/-- The role model of end-to-end scenario 1: trusts only the
machine-instance service principal. -/
def adminRoleModel : RoleModel :=
  { trusts := ["ec2.amazonaws.com"]
    managedPolicies := none
    inAccounts := none
    retainOnDelete := none }

/- Counting trust specifiers by their classification. -/

/-- True for the account classification. -/
def is_account_class : TrustClass → Bool
  | TrustClass.account _ => true
  | _ => false

/-- True for the service classification. -/
def is_service_class : TrustClass → Bool
  | TrustClass.service => true
  | _ => false

/-- True for the SAML classification. -/
def is_saml_class : TrustClass → Bool
  | TrustClass.saml => true
  | _ => false

/-- Count the specifiers of a trust list whose classification satisfies
the given test. -/
def count_class (c : Config) (k : TrustClass → Bool)
    (trusts : List String) : Nat :=
  trusts.countP (fun t => k (classify_trust c t))

/-- A configuration for the C1 witness: the policy name localpol is
declared in configuration but scheduled for no account. -/
def configWithLocalPolicy : Config :=
  { exampleConfig with
      isLocalManagedPolicy := fun n => n = "localpol"
      isManagedPolicyInAccount := fun _ _ => false }

/-- A configuration for the C1 witness: localpol is declared and is
scheduled for the account id of prod. -/
def configWithLocalPolicyInAccount : Config :=
  { exampleConfig with
      isLocalManagedPolicy := fun n => n = "localpol"
      isManagedPolicyInAccount := fun n a =>
        n = "localpol" && a = "111111111111" }

/- Empty models used by witnesses. -/

/-- A policies-section entry with every optional field absent. -/
def policyModel0 : PolicyModel :=
  { policyFile := none, templateVars := none, assume := none,
    inAccounts := none, description := none, groups := none,
    users := none, roles := none, retainOnDelete := none }

/-- A groups-section entry with every optional field absent. -/
def groupModel0 : GroupModel :=
  { managedPolicies := none, inAccounts := none, retainOnDelete := none }

/-- A users-section entry with every optional field absent. -/
def userModel0 : UserModel :=
  { groups := none, managedPolicies := none, password := none,
    inAccounts := none, retainOnDelete := none }

/-- A role model whose trusts name an account rather than the
machine-instance service principal. -/
def accountTrustRoleModel : RoleModel :=
  { trusts := ["prod"], managedPolicies := none, inAccounts := none,
    retainOnDelete := none }

/-- A policy model carrying both an assume shorthand and a policy file,
to exhibit the overwrite. -/
def assumeAndFilePolicyModel : PolicyModel :=
  { policyModel0 with
      policyFile := some "admin.j2"
      assume := some (["prod"], ["Admin"]) }

/-- A policy model carrying only a policy file. -/
def fileOnlyPolicyModel : PolicyModel :=
  { policyModel0 with policyFile := some "admin.j2" }

/-- Projection of a managed-policy resource's role membership list, used
to inspect registered resources. -/
def mp_roles_of : Resource → List ImportOrName
  | Resource.managedPolicy r => r.roles
  | _ => []

deriving instance DecidableEq for Except

/- Helper lemmas about the template dictionary. -/

/-- Reading the account just written returns the written document. -/
theorem getT_setT_same (ts : Templates) (a : String) (d : TemplateDocument) :
    getT (setT ts a d) a = d := by
  induction ts with
  | nil => simp [getT, setT]
  | cons p ps ih =>
    by_cases h : p.1 = a
    · simp [getT, setT, h]
    · simp [getT, setT, h, ih]

/-- Writing one account leaves every other account's document unchanged. -/
theorem getT_setT_other (ts : Templates) (a b : String)
    (d : TemplateDocument) (h : b ≠ a) : getT (setT ts a d) b = getT ts b := by
  induction ts with
  | nil => simp [getT, setT, Ne.symm h]
  | cons p ps ih =>
    by_cases hp : p.1 = a
    · subst hp
      simp [getT, setT, Ne.symm h]
    · simp [getT, setT, hp, ih]

/-- C8: scrub_name is a pure total function that removes exactly the
characters outside A-Z, a-z, 0-9, and it is idempotent:
scrub_name (scrub_name x) = scrub_name x for every string. -/
theorem C8_scrub_removes_nonalnum_and_idempotent :
    (∀ x : String, scrub_name (scrub_name x) = scrub_name x) ∧
    (∀ (x : String) (ch : Char),
      ch ∈ (scrub_name x).data ↔
        ch ∈ x.data ∧ (ch.isAlpha || ch.isDigit) = true) := by
  constructor
  · intro x
    show String.mk ((x.data.filter _).filter _) = String.mk (x.data.filter _)
    rw [List.filter_filter]
    congr 1
    apply List.filter_congr
    intro a _
    cases h1 : a.isAlpha <;> cases h2 : a.isDigit <;> simp [h1, h2]
  · intro x ch
    show ch ∈ x.data.filter _ ↔ _
    simp [List.mem_filter]

/-- C4: build_assume_role_policy_document emits one Allow sts:AssumeRole
statement per (account, role) pair of the cross product, with resource
arn:aws:iam::id:role/name, and the concrete scenario with accounts [prod]
(id 111111111111) and roles [Admin] yields exactly the single expected
statement. -/
theorem C4_assume_cross_product :
    (∀ (c : Config) (accounts roles : List String),
      (build_assume_role_policy_document c accounts roles).statements.length
        = roles.length * accounts.length) ∧
    (∀ (c : Config) (accounts roles : List String) (s : ResourceStmt),
      s ∈ (build_assume_role_policy_document c accounts roles).statements ↔
        ∃ r ∈ roles, ∃ a ∈ accounts,
          s = { effect := "Allow", action := "sts:AssumeRole",
                resource := "arn:aws:iam::" ++ c.mapAccount a
                            ++ ":role/" ++ r }) ∧
    ((build_assume_role_policy_document exampleConfig
        (exampleConfig.searchAccounts ["prod"]) ["Admin"]).statements
      = [{ effect := "Allow", action := "sts:AssumeRole",
           resource := "arn:aws:iam::111111111111:role/Admin" }]) := by
  refine ⟨?_, ?_, by decide⟩
  · intro c accounts roles
    show (assume_statements c accounts roles).length = _
    induction roles with
    | nil => simp [assume_statements]
    | cons r rs ih =>
      simp only [assume_statements, List.length_append, List.length_map,
        List.length_cons, ih, Nat.succ_mul]
      exact Nat.add_comm _ _
  · intro c accounts roles s
    show s ∈ assume_statements c accounts roles ↔ _
    induction roles with
    | nil => simp [assume_statements]
    | cons r rs ih =>
      simp only [assume_statements, List.mem_append, List.mem_map, ih,
        List.mem_cons, build_sts_statement]
      constructor
      · rintro (⟨a, ha, rfl⟩ | ⟨r', hr', a, ha, rfl⟩)
        · exact ⟨r, Or.inl rfl, a, ha, rfl⟩
        · exact ⟨r', Or.inr hr', a, ha, rfl⟩
      · rintro ⟨r', hr' | hr', a, ha, rfl⟩
        · subst hr'
          exact Or.inl ⟨a, ha, rfl⟩
        · exact Or.inr ⟨r', hr', a, ha, rfl⟩

/-- When the classification loop succeeds, the sts principal list is as
long as the account plus service specifiers and the saml principal list
as long as the SAML specifiers. -/
theorem classify_trusts_lengths (c : Config) (trusts : List String)
    (sts saml : List Principal)
    (h : classify_trusts c trusts = Except.ok (sts, saml)) :
    sts.length = count_class c is_account_class trusts
                 + count_class c is_service_class trusts ∧
    saml.length = count_class c is_saml_class trusts := by
  induction trusts generalizing sts saml with
  | nil =>
    simp [classify_trusts] at h
    simp [count_class, h.1, h.2]
  | cons t ts ih =>
    rw [classify_trusts] at h
    cases hk : classify_trust c t <;> rw [hk] at h
    case account a =>
      cases hrec : classify_trusts c ts with
      | error e => rw [hrec] at h; exact absurd h (by simp [Except.map])
      | ok p =>
        rw [hrec] at h
        simp only [Except.map, Except.ok.injEq] at h
        injection h with h1 h2
        subst h1
        subst h2
        have := ih p.1 p.2 (by rw [hrec])
        simp [count_class, List.countP_cons, hk, is_account_class,
          is_service_class, is_saml_class] at this ⊢
        omega
    case saml =>
      cases hrec : classify_trusts c ts with
      | error e => rw [hrec] at h; exact absurd h (by simp [Except.map])
      | ok p =>
        rw [hrec] at h
        simp only [Except.map, Except.ok.injEq] at h
        injection h with h1 h2
        subst h1
        subst h2
        have := ih p.1 p.2 (by rw [hrec])
        simp [count_class, List.countP_cons, hk, is_account_class,
          is_service_class, is_saml_class] at this ⊢
        omega
    case service =>
      cases hrec : classify_trusts c ts with
      | error e => rw [hrec] at h; exact absurd h (by simp [Except.map])
      | ok p =>
        rw [hrec] at h
        simp only [Except.map, Except.ok.injEq] at h
        injection h with h1 h2
        subst h1
        subst h2
        have := ih p.1 p.2 (by rw [hrec])
        simp [count_class, List.countP_cons, hk, is_account_class,
          is_service_class, is_saml_class] at this ⊢
        omega
    case unknown => exact absurd h (by simp)

/-- C2: when build_role_trust succeeds, the document splits into a block
of sts:AssumeRole statements (one per account or service specifier)
followed by a block of sts:AssumeRoleWithSAML statements with the fixed
audience condition (one per SAML specifier), and the total statement
count is the sum of the three specifier counts. -/
theorem C2_trust_statement_count_and_order :
    ∀ (c : Config) (trusts : List String) (doc : PolicyDoc),
      build_role_trust c trusts = Except.ok doc →
      ∃ pre post, doc.statements = pre ++ post ∧
        pre.length = count_class c is_account_class trusts
                     + count_class c is_service_class trusts ∧
        post.length = count_class c is_saml_class trusts ∧
        doc.statements.length =
          count_class c is_account_class trusts
          + count_class c is_service_class trusts
          + count_class c is_saml_class trusts ∧
        (∀ s ∈ pre, s.action = "sts:AssumeRole" ∧ s.condition = none) ∧
        (∀ s ∈ post, s.action = "sts:AssumeRoleWithSAML" ∧
          s.condition = some saml_aud) := by
  intro c trusts doc h
  rw [build_role_trust] at h
  cases hrec : classify_trusts c trusts with
  | error e => rw [hrec] at h; exact absurd h (by simp [Except.map])
  | ok p =>
    rw [hrec] at h
    simp only [Except.map, Except.ok.injEq] at h
    subst h
    obtain ⟨h1, h2⟩ := classify_trusts_lengths c trusts p.1 p.2 hrec
    refine ⟨_, _, rfl, ?_, ?_, ?_, ?_, ?_⟩
    · simpa using h1
    · simpa using h2
    · simp only [List.length_append, List.length_map, h1, h2]
    · intro s hs
      simp only [List.mem_map] at hs
      obtain ⟨pr, _, rfl⟩ := hs
      exact ⟨rfl, rfl⟩
    · intro s hs
      simp only [List.mem_map] at hs
      obtain ⟨pr, _, rfl⟩ := hs
      exact ⟨rfl, rfl⟩

/-- Witness for C2 at a trust list with one account, one service and one
SAML specifier under the concrete example configuration. -/
theorem C2_witness :
    ∃ pre post,
      ([{ effect := "Allow",
          principal := account_principal exampleConfig "prod",
          action := "sts:AssumeRole", condition := none },
        { effect := "Allow",
          principal := Principal.service "ec2.amazonaws.com",
          action := "sts:AssumeRole", condition := none },
        { effect := "Allow",
          principal := saml_principal exampleConfig,
          action := "sts:AssumeRoleWithSAML",
          condition := some saml_aud }] : List TrustStmt) = pre ++ post ∧
      pre.length = count_class exampleConfig is_account_class
          ["prod", "ec2.amazonaws.com", "ExampleSAML"]
        + count_class exampleConfig is_service_class
          ["prod", "ec2.amazonaws.com", "ExampleSAML"] ∧
      post.length = count_class exampleConfig is_saml_class
          ["prod", "ec2.amazonaws.com", "ExampleSAML"] ∧
      ([{ effect := "Allow",
          principal := account_principal exampleConfig "prod",
          action := "sts:AssumeRole", condition := none },
        { effect := "Allow",
          principal := Principal.service "ec2.amazonaws.com",
          action := "sts:AssumeRole", condition := none },
        { effect := "Allow",
          principal := saml_principal exampleConfig,
          action := "sts:AssumeRoleWithSAML",
          condition := some saml_aud }] : List TrustStmt).length =
        count_class exampleConfig is_account_class
          ["prod", "ec2.amazonaws.com", "ExampleSAML"]
        + count_class exampleConfig is_service_class
          ["prod", "ec2.amazonaws.com", "ExampleSAML"]
        + count_class exampleConfig is_saml_class
          ["prod", "ec2.amazonaws.com", "ExampleSAML"] ∧
      (∀ s ∈ pre, s.action = "sts:AssumeRole" ∧ s.condition = none) ∧
      (∀ s ∈ post, s.action = "sts:AssumeRoleWithSAML" ∧
        s.condition = some saml_aud) :=
  C2_trust_statement_count_and_order exampleConfig
    ["prod", "ec2.amazonaws.com", "ExampleSAML"]
    { version := "2012-10-17"
      statements :=
        [{ effect := "Allow",
           principal := account_principal exampleConfig "prod",
           action := "sts:AssumeRole", condition := none },
         { effect := "Allow",
           principal := Principal.service "ec2.amazonaws.com",
           action := "sts:AssumeRole", condition := none },
         { effect := "Allow",
           principal := saml_principal exampleConfig,
           action := "sts:AssumeRoleWithSAML",
           condition := some saml_aud }] }
    (by decide)

/-- C3: classification of a trust specifier is first match wins in source
order: an account match beats everything, then the SAML provider name,
then the dotted service pattern, and otherwise build_role_trust fails
with the unresolved-trust error naming the specifier; each branch yields
exactly one statement of the corresponding kind. -/
theorem C3_trust_first_match :
    ∀ (c : Config) (t : String),
      (∀ a rest, c.searchAccounts [t] = a :: rest →
        build_role_trust c [t] = Except.ok
          { version := "2012-10-17"
            statements := [{
              effect := "Allow",
              principal := account_principal c a,
              action := "sts:AssumeRole", condition := none }] }) ∧
      (c.searchAccounts [t] = [] → t = c.samlProvider →
        build_role_trust c [t] = Except.ok
          { version := "2012-10-17"
            statements := [{
              effect := "Allow",
              principal := saml_principal c,
              action := "sts:AssumeRoleWithSAML",
              condition := some saml_aud }] }) ∧
      (c.searchAccounts [t] = [] → t ≠ c.samlProvider →
        str_has_dot t = true →
        build_role_trust c [t] = Except.ok
          { version := "2012-10-17"
            statements := [{
              effect := "Allow",
              principal := Principal.service t,
              action := "sts:AssumeRole", condition := none }] }) ∧
      (c.searchAccounts [t] = [] → t ≠ c.samlProvider →
        str_has_dot t = false →
        build_role_trust c [t] = Except.error (unresolved_trust_msg t)) := by
  intro c t
  refine ⟨?_, ?_, ?_, ?_⟩
  · intro a rest hsa
    have hc : classify_trust c t = TrustClass.account a := by
      rw [classify_trust, hsa]
    simp [build_role_trust, classify_trusts, hc, Except.map]
  · intro hsa hsaml
    have hc : classify_trust c t = TrustClass.saml := by
      rw [classify_trust, hsa]
      simp [hsaml]
    simp [build_role_trust, classify_trusts, hc, Except.map]
  · intro hsa hsaml hdot
    have hc : classify_trust c t = TrustClass.service := by
      rw [classify_trust, hsa]
      simp [hsaml, hdot]
    simp [build_role_trust, classify_trusts, hc, Except.map]
  · intro hsa hsaml hdot
    have hc : classify_trust c t = TrustClass.unknown := by
      rw [classify_trust, hsa]
      simp [hsaml, hdot]
    simp [build_role_trust, classify_trusts, hc, Except.map]

/-- Witness for C3: the four branches at concrete specifiers under the
example configuration: an account name, the SAML provider name, a dotted
service name, and an unresolvable name. -/
theorem C3_witness :
    build_role_trust exampleConfig ["prod"] = Except.ok
      { version := "2012-10-17"
        statements := [{
          effect := "Allow",
          principal := account_principal exampleConfig "prod",
          action := "sts:AssumeRole", condition := none }] } ∧
    build_role_trust exampleConfig ["ExampleSAML"] = Except.ok
      { version := "2012-10-17"
        statements := [{
          effect := "Allow",
          principal := saml_principal exampleConfig,
          action := "sts:AssumeRoleWithSAML",
          condition := some saml_aud }] } ∧
    build_role_trust exampleConfig ["ec2.amazonaws.com"] = Except.ok
      { version := "2012-10-17"
        statements := [{
          effect := "Allow",
          principal := Principal.service "ec2.amazonaws.com",
          action := "sts:AssumeRole", condition := none }] } ∧
    build_role_trust exampleConfig ["nosuchname"] =
      Except.error (unresolved_trust_msg "nosuchname") :=
  ⟨(C3_trust_first_match exampleConfig "prod").1 "prod" [] (by decide),
   (C3_trust_first_match exampleConfig "ExampleSAML").2.1
     (by decide) (by decide),
   (C3_trust_first_match exampleConfig "ec2.amazonaws.com").2.2.1
     (by decide) (by decide) (by decide),
   (C3_trust_first_match exampleConfig "nosuchname").2.2.2
     (by decide) (by decide) (by decide)⟩

/-- C1: managed-policy reference resolution is first match wins: an
arn:aws reference passes through as a literal, an import-marked reference
becomes an ImportValue of the remainder, and any other reference must be
a configured local policy, failing with the unknown-policy error (naming
the reference and its owner) when it is not declared anywhere — for every
account-membership oracle, so the existence check precedes the membership
check — failing with the not-in-account error when declared but not
scheduled for the current account, and resolving to a Ref of the scrubbed
name on success. -/
theorem C1_managed_policy_resolution :
    ∀ (c : Config) (workingOn mp : String) (rest : List String),
      (str_starts_with "arn:aws" mp = true →
        parse_managed_policies c (mp :: rest) workingOn
          = (parse_managed_policies c rest workingOn).map
              (fun l => ManagedPolicyRef.literal mp :: l)) ∧
      (str_starts_with "arn:aws" mp = false →
       str_starts_with "import:" mp = true →
        parse_managed_policies c (mp :: rest) workingOn
          = (parse_managed_policies c rest workingOn).map
              (fun l => ManagedPolicyRef.importValue (str_drop mp 7) :: l)) ∧
      (str_starts_with "arn:aws" mp = false →
       str_starts_with "import:" mp = false →
       c.isLocalManagedPolicy mp = false →
        parse_managed_policies c (mp :: rest) workingOn
          = Except.error (mp_unknown_msg workingOn mp)) ∧
      (str_starts_with "arn:aws" mp = false →
       str_starts_with "import:" mp = false →
       c.isLocalManagedPolicy mp = true →
       c.isManagedPolicyInAccount mp (c.mapAccount c.currentAccount)
         = false →
        parse_managed_policies c (mp :: rest) workingOn
          = Except.error
              (mp_not_in_account_msg workingOn mp c.currentAccount)) ∧
      (str_starts_with "arn:aws" mp = false →
       str_starts_with "import:" mp = false →
       c.isLocalManagedPolicy mp = true →
       c.isManagedPolicyInAccount mp (c.mapAccount c.currentAccount)
         = true →
        parse_managed_policies c (mp :: rest) workingOn
          = (parse_managed_policies c rest workingOn).map
              (fun l => ManagedPolicyRef.ref (scrub_name mp) :: l)) := by
  intro c workingOn mp rest
  refine ⟨?_, ?_, ?_, ?_, ?_⟩
  · intro h1
    rw [parse_managed_policies]
    simp [h1]
  · intro h1 h2
    rw [parse_managed_policies]
    simp [h1, h2]
  · intro h1 h2 h3
    rw [parse_managed_policies]
    simp [h1, h2, h3]
  · intro h1 h2 h3 h4
    rw [parse_managed_policies]
    simp [h1, h2, h3, h4]
  · intro h1 h2 h3 h4
    rw [parse_managed_policies]
    simp [h1, h2, h3, h4]

/-- Witness for C1: the five branches at concrete references — a literal
ARN, an import marker, an undeclared name, a declared name missing from
the current account, and a declared name present in it. -/
theorem C1_witness :
    parse_managed_policies exampleConfig ["arn:aws:iam::aws:policy/X"]
        "Role1"
      = (parse_managed_policies exampleConfig [] "Role1").map
          (fun l =>
            ManagedPolicyRef.literal "arn:aws:iam::aws:policy/X" :: l) ∧
    parse_managed_policies exampleConfig ["import:SharedPolicyArn"] "Role1"
      = (parse_managed_policies exampleConfig [] "Role1").map
          (fun l =>
            ManagedPolicyRef.importValue
              (str_drop "import:SharedPolicyArn" 7) :: l) ∧
    parse_managed_policies exampleConfig ["ghost"] "Role1"
      = Except.error (mp_unknown_msg "Role1" "ghost") ∧
    parse_managed_policies configWithLocalPolicy ["localpol"] "Role1"
      = Except.error
          (mp_not_in_account_msg "Role1" "localpol"
            configWithLocalPolicy.currentAccount) ∧
    parse_managed_policies configWithLocalPolicyInAccount ["localpol"]
        "Role1"
      = Except.map
          (fun l => ManagedPolicyRef.ref (scrub_name "localpol") :: l)
          (parse_managed_policies configWithLocalPolicyInAccount []
            "Role1") :=
  ⟨(C1_managed_policy_resolution exampleConfig "Role1"
      "arn:aws:iam::aws:policy/X" []).1 (by decide),
   (C1_managed_policy_resolution exampleConfig "Role1"
      "import:SharedPolicyArn" []).2.1 (by decide) (by decide),
   (C1_managed_policy_resolution exampleConfig "Role1" "ghost" []).2.2.1
      (by decide) (by decide) (by decide),
   (C1_managed_policy_resolution configWithLocalPolicy "Role1"
      "localpol" []).2.2.2.1 (by decide) (by decide) (by decide) (by decide),
   (C1_managed_policy_resolution configWithLocalPolicyInAccount "Role1"
      "localpol" []).2.2.2.2 (by decide) (by decide) (by decide) (by decide)⟩

/- Shared facts about the assembler tail. -/

/-- The tail appends exactly the one resource to the current account's
document. -/
theorem register_resources (c : Config) (r : Resource) (out : OutputDecl)
    (ts : Templates) :
    (getT (add_resource_and_output c r out ts) c.currentAccount).resources
      = (getT ts c.currentAccount).resources ++ [r] := by
  by_cases h : c.templateOutputs = "enabled" <;>
    simp [add_resource_and_output, h, getT_setT_same]

/-- The tail appends the output declaration exactly when the flag is the
string enabled. -/
theorem register_outputs (c : Config) (r : Resource) (out : OutputDecl)
    (ts : Templates) :
    (getT (add_resource_and_output c r out ts) c.currentAccount).outputs
      = (getT ts c.currentAccount).outputs
        ++ (if c.templateOutputs = "enabled" then [out] else []) := by
  by_cases h : c.templateOutputs = "enabled" <;>
    simp [add_resource_and_output, h, getT_setT_same]

/-- The tail leaves every other account's document unchanged. -/
theorem register_frame (c : Config) (r : Resource) (out : OutputDecl)
    (ts : Templates) (a : String) (h : a ≠ c.currentAccount) :
    getT (add_resource_and_output c r out ts) a = getT ts a := by
  simp [add_resource_and_output, getT_setT_other _ _ _ _ h]

/- Success shapes of the fallible assemblers. -/

/-- A successful add_role is the assembler tail applied to the role
resource built from some successfully resolved trust document and
managed-policy list. -/
theorem add_role_ok_shape (c : Config) (n : String) (m : RoleModel)
    (named : Bool) (ts ts' : Templates)
    (h : add_role c n m named ts = Except.ok ts') :
    ∃ trust arns,
      build_role_trust c m.trusts = Except.ok trust ∧
      ts' = add_resource_and_output c
        (Resource.role (role_resource n m named trust arns))
        (role_output n) ts := by
  rw [add_role] at h
  cases htr : build_role_trust c m.trusts with
  | error e =>
    rw [htr] at h
    exact absurd h (by simp)
  | ok trust =>
    rw [htr] at h
    cases hmp : m.managedPolicies with
    | none =>
      rw [hmp] at h
      simp only [Except.ok.injEq] at h
      exact ⟨trust, [], rfl, h.symm⟩
    | some l =>
      rw [hmp] at h
      simp only [] at h
      cases hp : parse_managed_policies c l n with
      | error e =>
        rw [hp] at h
        exact absurd h (by simp)
      | ok arns =>
        rw [hp] at h
        simp only [Except.ok.injEq] at h
        exact ⟨trust, arns, rfl, h.symm⟩

/-- A successful add_group is the assembler tail applied to the group
resource built from some successfully resolved managed-policy list. -/
theorem add_group_ok_shape (c : Config) (n : String) (m : GroupModel)
    (named : Bool) (ts ts' : Templates)
    (h : add_group c n m named ts = Except.ok ts') :
    ∃ arns,
      ts' = add_resource_and_output c
        (Resource.group (group_resource n m named arns))
        (group_output n) ts := by
  rw [add_group] at h
  cases hmp : m.managedPolicies with
  | none =>
    rw [hmp] at h
    simp only [Except.ok.injEq] at h
    exact ⟨[], h.symm⟩
  | some l =>
    rw [hmp] at h
    simp only [] at h
    cases hp : parse_managed_policies c l n with
    | error e =>
      rw [hp] at h
      exact absurd h (by simp)
    | ok arns =>
      rw [hp] at h
      simp only [Except.ok.injEq] at h
      exact ⟨arns, h.symm⟩

/-- A successful add_user is the assembler tail applied to the user
resource built from some successfully resolved managed-policy list. -/
theorem add_user_ok_shape (c : Config) (n : String) (m : UserModel)
    (named : Bool) (ts ts' : Templates)
    (h : add_user c n m named ts = Except.ok ts') :
    ∃ arns,
      ts' = add_resource_and_output c
        (Resource.user (user_resource n m named arns))
        (user_output n) ts := by
  rw [add_user] at h
  cases hmp : m.managedPolicies with
  | none =>
    rw [hmp] at h
    simp only [Except.ok.injEq] at h
    exact ⟨[], h.symm⟩
  | some l =>
    rw [hmp] at h
    simp only [] at h
    cases hp : parse_managed_policies c l n with
    | error e =>
      rw [hp] at h
      exact absurd h (by simp)
    | ok arns =>
      rw [hp] at h
      simp only [Except.ok.injEq] at h
      exact ⟨arns, h.symm⟩

/-- C5: every assembler appends its output declaration to the current
account's document exactly when the template_outputs flag equals the
string enabled, and the export name is always the stack-name substitution
prefix followed by the scrubbed identifier and the type suffix. -/
theorem C5_outputs_gated_and_export_names :
    (∀ (c : Config) (n : String) (doc : PolicyDocContent) (m : PolicyModel)
        (named : Bool) (ts : Templates),
      (getT (add_managed_policy c n doc m named ts) c.currentAccount).outputs
        = (getT ts c.currentAccount).outputs
          ++ (if c.templateOutputs = "enabled"
              then [managed_policy_output n m] else []) ∧
      (managed_policy_output n m).exportName
        = "${AWS::StackName}-" ++ scrub_name n ++ "PolicyArn") ∧
    (∀ (c : Config) (n : String) (m : RoleModel) (named : Bool)
        (ts : Templates),
      (getT (create_instance_profile c n m named ts)
          c.currentAccount).outputs
        = (getT ts c.currentAccount).outputs
          ++ (if c.templateOutputs = "enabled"
              then [instance_profile_output n] else []) ∧
      (instance_profile_output n).exportName
        = "${AWS::StackName}-" ++ scrub_name (n ++ "InstanceProfile")
          ++ "Arn") ∧
    (∀ (c : Config) (n : String) (m : RoleModel) (named : Bool)
        (ts ts' : Templates), add_role c n m named ts = Except.ok ts' →
      (getT ts' c.currentAccount).outputs
        = (getT ts c.currentAccount).outputs
          ++ (if c.templateOutputs = "enabled"
              then [role_output n] else []) ∧
      (role_output n).exportName
        = "${AWS::StackName}-" ++ scrub_name (n ++ "Role") ++ "Arn") ∧
    (∀ (c : Config) (n : String) (m : GroupModel) (named : Bool)
        (ts ts' : Templates), add_group c n m named ts = Except.ok ts' →
      (getT ts' c.currentAccount).outputs
        = (getT ts c.currentAccount).outputs
          ++ (if c.templateOutputs = "enabled"
              then [group_output n] else []) ∧
      (group_output n).exportName
        = "${AWS::StackName}-" ++ scrub_name (n ++ "Group") ++ "Arn") ∧
    (∀ (c : Config) (n : String) (m : UserModel) (named : Bool)
        (ts ts' : Templates), add_user c n m named ts = Except.ok ts' →
      (getT ts' c.currentAccount).outputs
        = (getT ts c.currentAccount).outputs
          ++ (if c.templateOutputs = "enabled"
              then [user_output n] else []) ∧
      (user_output n).exportName
        = "${AWS::StackName}-" ++ scrub_name (n ++ "User") ++ "Arn") := by
  refine ⟨?_, ?_, ?_, ?_, ?_⟩
  · intro c n doc m named ts
    exact ⟨register_outputs c _ _ ts, rfl⟩
  · intro c n m named ts
    exact ⟨register_outputs c _ _ ts, rfl⟩
  · intro c n m named ts ts' h
    obtain ⟨trust, arns, htr, rfl⟩ := add_role_ok_shape c n m named ts ts' h
    exact ⟨register_outputs c _ _ ts, rfl⟩
  · intro c n m named ts ts' h
    obtain ⟨arns, rfl⟩ := add_group_ok_shape c n m named ts ts' h
    exact ⟨register_outputs c _ _ ts, rfl⟩
  · intro c n m named ts ts' h
    obtain ⟨arns, rfl⟩ := add_user_ok_shape c n m named ts ts' h
    exact ⟨register_outputs c _ _ ts, rfl⟩

/-- Witness for C5: the three fallible assemblers applied at concrete
inputs under the example configuration, checking the outputs block that
gets appended and its export names. -/
theorem C5_witness :
    ((getT ((add_role exampleConfig "Admin" adminRoleModel true
          exampleTemplates).toOption.getD []) "prod").outputs
      = (getT exampleTemplates "prod").outputs
        ++ (if exampleConfig.templateOutputs = "enabled"
            then [role_output "Admin"] else []) ∧
      (role_output "Admin").exportName
        = "${AWS::StackName}-" ++ scrub_name ("Admin" ++ "Role") ++ "Arn") ∧
    ((getT ((add_group exampleConfig "Dev" groupModel0 true
          exampleTemplates).toOption.getD []) "prod").outputs
      = (getT exampleTemplates "prod").outputs
        ++ (if exampleConfig.templateOutputs = "enabled"
            then [group_output "Dev"] else []) ∧
      (group_output "Dev").exportName
        = "${AWS::StackName}-" ++ scrub_name ("Dev" ++ "Group") ++ "Arn") ∧
    ((getT ((add_user exampleConfig "Bob" userModel0 true
          exampleTemplates).toOption.getD []) "prod").outputs
      = (getT exampleTemplates "prod").outputs
        ++ (if exampleConfig.templateOutputs = "enabled"
            then [user_output "Bob"] else []) ∧
      (user_output "Bob").exportName
        = "${AWS::StackName}-" ++ scrub_name ("Bob" ++ "User") ++ "Arn") :=
  ⟨C5_outputs_gated_and_export_names.2.2.1 exampleConfig "Admin"
     adminRoleModel true exampleTemplates _ (by decide),
   C5_outputs_gated_and_export_names.2.2.2.1 exampleConfig "Dev"
     groupModel0 true exampleTemplates _ (by decide),
   C5_outputs_gated_and_export_names.2.2.2.2 exampleConfig "Bob"
     userModel0 true exampleTemplates _ (by decide)⟩

/-- C9: every single assembler call rewrites only the current account's
template document — appending exactly one resource to it — and leaves
every other account's document unchanged. -/
theorem C9_assembler_frame :
    (∀ (c : Config) (n : String) (doc : PolicyDocContent) (m : PolicyModel)
        (named : Bool) (ts : Templates),
      (∀ a, a ≠ c.currentAccount →
        getT (add_managed_policy c n doc m named ts) a = getT ts a) ∧
      ∃ r, (getT (add_managed_policy c n doc m named ts)
          c.currentAccount).resources
        = (getT ts c.currentAccount).resources ++ [r]) ∧
    (∀ (c : Config) (n : String) (m : RoleModel) (named : Bool)
        (ts : Templates),
      (∀ a, a ≠ c.currentAccount →
        getT (create_instance_profile c n m named ts) a = getT ts a) ∧
      ∃ r, (getT (create_instance_profile c n m named ts)
          c.currentAccount).resources
        = (getT ts c.currentAccount).resources ++ [r]) ∧
    (∀ (c : Config) (n : String) (m : RoleModel) (named : Bool)
        (ts ts' : Templates), add_role c n m named ts = Except.ok ts' →
      (∀ a, a ≠ c.currentAccount → getT ts' a = getT ts a) ∧
      ∃ r, (getT ts' c.currentAccount).resources
        = (getT ts c.currentAccount).resources ++ [r]) ∧
    (∀ (c : Config) (n : String) (m : GroupModel) (named : Bool)
        (ts ts' : Templates), add_group c n m named ts = Except.ok ts' →
      (∀ a, a ≠ c.currentAccount → getT ts' a = getT ts a) ∧
      ∃ r, (getT ts' c.currentAccount).resources
        = (getT ts c.currentAccount).resources ++ [r]) ∧
    (∀ (c : Config) (n : String) (m : UserModel) (named : Bool)
        (ts ts' : Templates), add_user c n m named ts = Except.ok ts' →
      (∀ a, a ≠ c.currentAccount → getT ts' a = getT ts a) ∧
      ∃ r, (getT ts' c.currentAccount).resources
        = (getT ts c.currentAccount).resources ++ [r]) := by
  refine ⟨?_, ?_, ?_, ?_, ?_⟩
  · intro c n doc m named ts
    exact ⟨fun a ha => register_frame c _ _ ts a ha,
           ⟨_, register_resources c _ _ ts⟩⟩
  · intro c n m named ts
    exact ⟨fun a ha => register_frame c _ _ ts a ha,
           ⟨_, register_resources c _ _ ts⟩⟩
  · intro c n m named ts ts' h
    obtain ⟨trust, arns, htr, rfl⟩ := add_role_ok_shape c n m named ts ts' h
    exact ⟨fun a ha => register_frame c _ _ ts a ha,
           ⟨_, register_resources c _ _ ts⟩⟩
  · intro c n m named ts ts' h
    obtain ⟨arns, rfl⟩ := add_group_ok_shape c n m named ts ts' h
    exact ⟨fun a ha => register_frame c _ _ ts a ha,
           ⟨_, register_resources c _ _ ts⟩⟩
  · intro c n m named ts ts' h
    obtain ⟨arns, rfl⟩ := add_user_ok_shape c n m named ts ts' h
    exact ⟨fun a ha => register_frame c _ _ ts a ha,
           ⟨_, register_resources c _ _ ts⟩⟩

/-- Witness for C9: concrete assembler calls under the example
configuration leave the document of a different account (dev) unchanged
while appending one resource to the document of prod. -/
theorem C9_witness :
    (getT (add_managed_policy exampleConfig "P" PolicyDocContent.emptyStr
        policyModel0 false exampleTemplates) "dev"
      = getT exampleTemplates "dev" ∧
     ∃ r, (getT (add_managed_policy exampleConfig "P"
          PolicyDocContent.emptyStr policyModel0 false exampleTemplates)
          "prod").resources
        = (getT exampleTemplates "prod").resources ++ [r]) ∧
    (getT ((add_role exampleConfig "Admin" adminRoleModel true
        exampleTemplates).toOption.getD []) "dev"
      = getT exampleTemplates "dev" ∧
     ∃ r, (getT ((add_role exampleConfig "Admin" adminRoleModel true
          exampleTemplates).toOption.getD []) "prod").resources
        = (getT exampleTemplates "prod").resources ++ [r]) :=
  ⟨⟨(C9_assembler_frame.1 exampleConfig "P" PolicyDocContent.emptyStr
       policyModel0 false exampleTemplates).1 "dev" (by decide),
    (C9_assembler_frame.1 exampleConfig "P" PolicyDocContent.emptyStr
       policyModel0 false exampleTemplates).2⟩,
   ⟨(C9_assembler_frame.2.2.1 exampleConfig "Admin" adminRoleModel true
       exampleTemplates _ (by decide)).1 "dev" (by decide),
    (C9_assembler_frame.2.2.1 exampleConfig "Admin" adminRoleModel true
       exampleTemplates _ (by decide)).2⟩⟩

/-- C6: after a successful add_role, the roles loop body additionally
registers an instance profile in the same (current) account exactly when
the trusts list includes ec2.amazonaws.com, with the profile bound by
Ref to the role's scrubbed logical name; and the end-to-end scenario of
one account prod and one role Admin trusting only ec2.amazonaws.com
yields the named Role, its InstanceProfile, and a one-statement
service-principal trust document. -/
theorem C6_instance_profile_accompanies_machine_trust :
    (∀ (c : Config) (n : String) (m : RoleModel) (named : Bool)
        (ts ts' : Templates), add_role c n m named ts = Except.ok ts' →
      ("ec2.amazonaws.com" ∈ m.trusts →
        process_role_account c n m named ts
          = Except.ok (create_instance_profile c n m named ts') ∧
        (getT (create_instance_profile c n m named ts')
            c.currentAccount).resources
          = (getT ts' c.currentAccount).resources
            ++ [Resource.instanceProfile
                  (instance_profile_resource n m named)] ∧
        (instance_profile_resource n m named).roles
          = [scrub_name (n ++ "Role")]) ∧
      ("ec2.amazonaws.com" ∉ m.trusts →
        process_role_account c n m named ts = Except.ok ts')) ∧
    (process_role exampleConfig "Admin" adminRoleModel true exampleTemplates
      = Except.ok [("prod",
        { resources := [
            Resource.role
              { logicalName := "AdminRole"
                roleName := some "Admin"
                path := "/"
                assumeRolePolicyDocument :=
                  { version := "2012-10-17"
                    statements := [{
                      effect := "Allow"
                      principal := Principal.service "ec2.amazonaws.com"
                      action := "sts:AssumeRole"
                      condition := none }] }
                managedPolicyArns := []
                retain := false },
            Resource.instanceProfile
              { logicalName := "AdminInstanceProfile"
                instanceProfileName := some "Admin"
                path := "/"
                roles := ["AdminRole"]
                retain := false }]
          outputs := [
            { name := "AdminRoleArn"
              description := "Role Admin ARN"
              value := OutVal.getAtt "AdminRole" "Arn"
              exportName := "${AWS::StackName}-AdminRoleArn" },
            { name := "AdminInstanceProfileArn"
              description := "Instance profile for Role Admin ARN"
              value := OutVal.refOf "AdminInstanceProfile"
              exportName :=
                "${AWS::StackName}-AdminInstanceProfileArn" }] })]) := by
  refine ⟨?_, by decide⟩
  intro c n m named ts ts' h
  constructor
  · intro hin
    have hc : m.trusts.contains "ec2.amazonaws.com" = true := by
      simpa using hin
    refine ⟨?_, register_resources c _ _ ts', rfl⟩
    rw [process_role_account, h, hc]
    simp
  · intro hout
    have hc : m.trusts.contains "ec2.amazonaws.com" = false := by
      simpa using hout
    rw [process_role_account, h, hc]
    simp

/-- Witness for C6: both branches at concrete inputs — the Admin role
trusting ec2.amazonaws.com gains an instance profile, a role trusting
only the prod account does not. -/
theorem C6_witness :
    (process_role_account exampleConfig "Admin" adminRoleModel true
        exampleTemplates
      = Except.ok (create_instance_profile exampleConfig "Admin"
          adminRoleModel true
          ((add_role exampleConfig "Admin" adminRoleModel true
            exampleTemplates).toOption.getD [])) ∧
     (getT (create_instance_profile exampleConfig "Admin" adminRoleModel
          true
          ((add_role exampleConfig "Admin" adminRoleModel true
            exampleTemplates).toOption.getD [])) "prod").resources
       = (getT ((add_role exampleConfig "Admin" adminRoleModel true
            exampleTemplates).toOption.getD []) "prod").resources
         ++ [Resource.instanceProfile
               (instance_profile_resource "Admin" adminRoleModel true)] ∧
     (instance_profile_resource "Admin" adminRoleModel true).roles
       = [scrub_name ("Admin" ++ "Role")]) ∧
    (process_role_account exampleConfig "NoMachine" accountTrustRoleModel
        true exampleTemplates
      = Except.ok ((add_role exampleConfig "NoMachine"
          accountTrustRoleModel true exampleTemplates).toOption.getD [])) :=
  ⟨((C6_instance_profile_accompanies_machine_trust.1 exampleConfig "Admin"
      adminRoleModel true exampleTemplates _ (by decide)).1 (by decide)),
   ((C6_instance_profile_accompanies_machine_trust.1 exampleConfig
      "NoMachine" accountTrustRoleModel true exampleTemplates _
      (by decide)).2 (by decide))⟩

/-- Counterexample for C7: a managed-policy model whose roles list is
["import:X"] registers a resource whose Roles entry has been converted by
import-expansion to an ImportValue of X, not kept verbatim as the claim
asserts. -/
theorem C7_counterexample :
    (getT (add_managed_policy exampleConfig "P" PolicyDocContent.emptyStr
        { policyModel0 with roles := some ["import:X"] } false
        exampleTemplates) "prod").resources.map mp_roles_of
      = [[ImportOrName.importValue "X"]] ∧
    ¬ ((getT (add_managed_policy exampleConfig "P" PolicyDocContent.emptyStr
        { policyModel0 with roles := some ["import:X"] } false
        exampleTemplates) "prod").resources.map mp_roles_of
      = [[ImportOrName.name "import:X"]]) := by
  decide

/-- C7 (amended): import-reference expansion is applied uniformly to all
three membership lists of a managed-policy model — groups, users and
roles each pass through parse_imports on their way into the registered
resource. -/
theorem C7_amended_uniform_import_expansion :
    ∀ (c : Config) (n : String) (doc : PolicyDocContent) (m : PolicyModel)
        (named : Bool) (ts : Templates),
      (getT (add_managed_policy c n doc m named ts)
          c.currentAccount).resources
        = (getT ts c.currentAccount).resources
          ++ [Resource.managedPolicy
                (managed_policy_resource n doc m named)] ∧
      (managed_policy_resource n doc m named).groups
        = parse_imports (m.groups.getD []) ∧
      (managed_policy_resource n doc m named).users
        = parse_imports (m.users.getD []) ∧
      (managed_policy_resource n doc m named).roles
        = parse_imports (m.roles.getD []) := by
  intro c n doc m named ts
  exact ⟨register_resources c _ _ ts, rfl, rfl, rfl⟩

/-- C10: the policies loop registers, for each account, a managed policy
whose document is chosen by: the assume-derived cross-product document
whenever the assume field is present (overwriting any rendered file
content), else the rendered file content when policy_file is present,
else the initial empty string. -/
theorem C10_policy_document_selection :
    (∀ (c : Config) (n : String) (m : PolicyModel) (named : Bool)
        (ts : Templates),
      (getT (process_policy_account c n m named ts)
          c.currentAccount).resources
        = (getT ts c.currentAccount).resources
          ++ [Resource.managedPolicy
                (managed_policy_resource n (policy_document_for c m)
                  m named)]) ∧
    (∀ (c : Config) (m : PolicyModel) (p : List String × List String),
      m.assume = some p →
      policy_document_for c m = PolicyDocContent.assumeDoc
        (build_assume_role_policy_document c (c.searchAccounts p.1) p.2)) ∧
    (∀ (c : Config) (m : PolicyModel) (f : String),
      m.assume = none → m.policyFile = some f →
      policy_document_for c m = PolicyDocContent.fromFile f) ∧
    (∀ (c : Config) (m : PolicyModel),
      m.assume = none → m.policyFile = none →
      policy_document_for c m = PolicyDocContent.emptyStr) := by
  refine ⟨?_, ?_, ?_, ?_⟩
  · intro c n m named ts
    exact register_resources c _ _ ts
  · intro c m p hp
    simp [policy_document_for, hp]
  · intro c m f h1 h2
    simp [policy_document_for, h1, h2]
  · intro c m h1 h2
    simp [policy_document_for, h1, h2]

/-- Witness for C10: the three document choices at concrete models — the
assume shorthand overwrites a present policy file, a lone policy file is
used, and the absence of both leaves the empty-string document. -/
theorem C10_witness :
    policy_document_for exampleConfig assumeAndFilePolicyModel
      = PolicyDocContent.assumeDoc
          (build_assume_role_policy_document exampleConfig
            (exampleConfig.searchAccounts ["prod"]) ["Admin"]) ∧
    policy_document_for exampleConfig fileOnlyPolicyModel
      = PolicyDocContent.fromFile "admin.j2" ∧
    policy_document_for exampleConfig policyModel0
      = PolicyDocContent.emptyStr :=
  ⟨C10_policy_document_selection.2.1 exampleConfig assumeAndFilePolicyModel
     (["prod"], ["Admin"]) rfl,
   C10_policy_document_selection.2.2.1 exampleConfig fileOnlyPolicyModel
     "admin.j2" rfl rfl,
   C10_policy_document_selection.2.2.2 exampleConfig policyModel0 rfl rfl⟩
